import Mathlib

/-!
Shallow embedding of src/core/Transitionable.js: a state maintainer that
drives smooth transitions between numeric states, coordinating a queue of
pending transitions, a pluggable engine registry, an activity state
machine, and deferred after-phase work.  The external collaborators
(interpolation engines, the Clock ticker, the deferred dirtyQueue, event
emission) are out of scope of the repository and are modelled from the
spec's interface contracts; everything else is translated directly from
the source file.
-/

namespace Lume

/-- A semantic value held by a Transitionable: a plain number, an ordered
sequence of numbers, or a keyed numeric map (the source's number,
Array.Number, Object of numbers). -/
inductive Val where
  | num (x : Int)
  | arr (xs : List Int)
  | obj (kvs : List (String × Int))
deriving DecidableEq

/-- A transition curve: a registered curve name, or an opaque curve
function (which is never a key of the engine registry, so looking it up
fails and the default engine is used). -/
inductive Curve where
  | name (s : String)
  | fnCurve
deriving DecidableEq

/-- A transition spec (the source's transition object): an optional curve
identifier and an optional velocity.  The duration is irrelevant to the
queue and state-machine logic modelled here; it is consumed only inside
the external engine. -/
structure TransitionSpec where
  curve : Option Curve
  velocity : Option Val
deriving DecidableEq

/-- The transitions argument accepted by iterate: either a single
(optional) shared spec, or an array of per-step specs consumed by
shifting its front. -/
inductive TransArg where
  | one (s : Option TransitionSpec)
  | many (ss : List TransitionSpec)
deriving DecidableEq

/-- A completion callback: an opaque user callback identified by a
number, an absent (falsy) callback whose invocation is a no-op, or the
continuation closure produced by iterate, capturing the remaining
(already shifted) values, the remaining transitions argument and the
final callback. -/
inductive Callback where
  | user (cid : Nat)
  | noCallback
  | iterCont (values : List Val) (transitions : TransArg) (k : Callback)
deriving DecidableEq

/-- Modelled from the spec: an engine constructor usable in the engine
registry (the external engine modules are not part of the repository).
What the core observes of a constructor is its identity, compared by the
loader against the currently instantiated kind, and its declared
SUPPORTS_MULTIPLE threshold. -/
structure EngineClass where
  id : Nat
  supportsMultiple : Nat
deriving DecidableEq

/-- Modelled from the spec: the default tween engine required from an
external module; famous-style engines declare SUPPORTS_MULTIPLE = true,
a threshold of 1. -/
def TweenTransition : EngineClass := { id := 0, supportsMultiple := 1 }

/-- The process-wide engine registry (the source's transitionMethods
object), as an association list from curve names to engine classes. -/
abbrev Registry := List (String × EngineClass)

/-- Lookup of a curve name in the registry (the source's
transitionMethods[curve] access and its name-in-transitionMethods
checks). -/
def lookupReg : Registry → String → Option EngineClass
  | [], _ => none
  | (n, c) :: rest, s => if n = s then some c else lookupReg rest s

/-- Removal of a name from the registry (the source's delete
transitionMethods[name]). -/
def removeReg : Registry → String → Registry
  | [], _ => []
  | (n, c) :: rest, s =>
    if n = s then removeReg rest s else (n, c) :: removeReg rest s

/-- Modelled from the spec: a live interpolation-engine instance, single
or composite.  Its observable contract: get() returns value, isActive()
returns active, getVelocity() returns velocity.  multiple records
whether it is a composite MultipleTransition wrapper, cls the
single-value engine class it was built from, and target the end state it
is currently moving toward. -/
structure EngineInstance where
  cls : EngineClass
  multiple : Bool
  value : Val
  velocity : Option Val
  active : Bool
  target : Option Val
deriving DecidableEq

/-- Modelled from the spec: engine.reset(state, velocity) — the engine
adopts the given stable value and velocity and becomes inactive. -/
def EngineInstance.resetE (e : EngineInstance) (v : Val) (vel : Option Val) :
    EngineInstance :=
  { e with value := v, velocity := vel, active := false, target := none }

/-- Modelled from the spec: engine.set(endValue, transition, hook) — the
engine begins moving toward endValue and becomes active. -/
def EngineInstance.setTarget (e : EngineInstance) (v : Val) : EngineInstance :=
  { e with target := some v, active := true }

/-- Modelled from the spec: the observable effect of one external tick at
which the engine reports completion — its sampled value reaches the
target and it becomes inactive. -/
def EngineInstance.finish (e : EngineInstance) : EngineInstance :=
  { e with value := e.target.getD e.value, active := false, target := none }

/-- The activity state machine constants (the source's STATE object). -/
inductive STATE where
  | NONE
  | START
  | UPDATE
  | END
deriving DecidableEq

/-- An emitted lifecycle event together with its payload. -/
inductive Event where
  | startEvent (v : Val)
  | updateEvent (v : Val)
  | endEvent (v : Val)
deriving DecidableEq

/-- A closure pushed on the external deferred after-phase queue (the
source's dirtyQueue): either the coalesced cleanup pushed by an
instantaneous set, or the terminal sequence pushed by update.  Both
closures capture only the instance itself and read its fields when they
run, so a tag suffices; their bodies are interpreted by runTask. -/
inductive DeferredTask where
  | instantCleanup
  | terminal
deriving DecidableEq

/-- The Transitionable instance state.  The fields mirror the source
(activity is the source's underscore-state field, dirty its
underscore-dirty flag, callback the pending completion callback of the
transition loaded into the engine); registered mirrors Clock
registration, dirtyQueueTasks holds this instance's pending closures on
the external after-phase queue, and events, calls and setLog are
observation logs recording emitted events, invoked user callbacks and
issued set calls. -/
structure Transitionable where
  transitionQueue : List TransitionSpec
  endStateQueue : List Val
  callbackQueue : List (Option Callback)
  state : Val
  velocity : Option Val
  callback : Option Callback
  engineInstance : Option EngineInstance
  currentMethod : Option EngineClass
  activity : STATE
  dirty : Bool
  registered : Bool
  events : List Event
  dirtyQueueTasks : List DeferredTask
  calls : List Nat
  setLog : List (Val × Option TransitionSpec)
deriving DecidableEq

namespace Transitionable

/-- A freshly constructed Transitionable with no initial value: state 0,
activity NONE, no engine, nothing queued. -/
def initial : Transitionable :=
  { transitionQueue := [], endStateQueue := [], callbackQueue := [],
    state := Val.num 0, velocity := none, callback := none,
    engineInstance := none, currentMethod := none,
    activity := STATE.NONE, dirty := false, registered := false,
    events := [], dirtyQueueTasks := [], calls := [], setLog := [] }

/-- Transitionable.register(name, engineClass): add a named engine kind
only when the name is absent; never overwrite. -/
def register (reg : Registry) (nm : String) (engineClass : EngineClass) :
    Registry :=
  if (lookupReg reg nm).isSome then reg else (nm, engineClass) :: reg

/-- Transitionable.unregister(name): remove a named engine kind,
returning whether it existed. -/
def unregister (reg : Registry) (nm : String) : Registry × Bool :=
  if (lookupReg reg nm).isSome then (removeReg reg nm, true) else (reg, false)

/-- get(): returns state as-is; it does not sample the engine. -/
def get (t : Transitionable) : Val := t.state

/-- isActive(): true exactly when the activity state is UPDATE. -/
def isActive (t : Transitionable) : Bool := decide (t.activity = STATE.UPDATE)

/-- reset(startState, startVelocity): hard reset — discard the engine
and engine kind, clear all queues, set state and velocity directly, emit
nothing.  (The source also calls reset on the engine instance it is
about to discard; the discarded engine is unobservable.) -/
def reset (t : Transitionable) (startState : Val) (startVelocity : Option Val) :
    Transitionable :=
  { t with currentMethod := none, engineInstance := none,
           state := startState, velocity := startVelocity,
           endStateQueue := [], transitionQueue := [], callbackQueue := [] }

/-- halt(): read the current state via get(), then the same teardown as
reset with that value and undefined velocity.  activity, dirty,
registration, the pending completion callback and the event log are all
untouched. -/
def halt (t : Transitionable) : Transitionable :=
  { t with currentMethod := none, engineInstance := none,
           state := get t, velocity := none,
           endStateQueue := [], transitionQueue := [], callbackQueue := [] }

/-- The engine-kind choice of _loadNext: transitionMethods[curve] when
the spec carries a truthy curve that is a registered name, else the
default TweenTransition. -/
def resolveMethod (reg : Registry) (tr : TransitionSpec) : EngineClass :=
  match tr.curve with
  | some (Curve.name s) =>
    match lookupReg reg s with
    | some m => m
    | none => TweenTransition
  | some Curve.fnCurve => TweenTransition
  | none => TweenTransition

/-- The single-value-engine condition of _loadNext: the end value is a
plain number, or it has a length at most the chosen class's
SUPPORTS_MULTIPLE threshold.  A keyed map has no length, so its
comparison is false and a composite engine is used. -/
def singleCond (v : Val) (m : EngineClass) : Bool :=
  match v with
  | Val.num _ => true
  | Val.arr xs => decide (xs.length ≤ m.supportsMultiple)
  | Val.obj _ => false

/-- A freshly constructed engine instance for the loader: new method()
when the single-value condition holds, else new
MultipleTransition(method); observably the two differ only in the
composite flag.  Its initial sampled value is irrelevant because
_loadNext resets the engine immediately. -/
def newEngine (m : EngineClass) (endValue : Val) : EngineInstance :=
  { cls := m, multiple := ! singleCond endValue m,
    value := Val.num 0, velocity := none, active := false, target := none }

/-- _loadNext(): if the end-state queue is empty, return; otherwise shift
one (endValue, transition, callback) triple off the three queues, choose
the engine kind from transition.curve via the registry, construct a
fresh engine when that kind differs from the current one and otherwise
keep the existing instance (after the source's conditional the current
method equals the chosen method in either branch, so the model assigns
it unconditionally), reset the engine with the current state and
velocity, re-derive the velocity from the engine when it was defined
(also writing it onto the transition spec handed to the engine), and
command the engine toward endValue with _loadNext itself as completion
hook.  The source's three queues are only ever pushed and cleared
together; the model totalises the unreachable ragged cases with a
curveless spec and an absent callback, and the unreachable case of a
kept-but-null engine with a fresh engine. -/
def loadNext (reg : Registry) (t : Transitionable) : Transitionable :=
  match t.endStateQueue with
  | [] => t
  | endValue :: restEnd =>
    let transition := match t.transitionQueue with
      | tr :: _ => tr
      | [] => { curve := none, velocity := none }
    let cb : Option Callback := match t.callbackQueue with
      | c :: _ => c
      | [] => none
    let t1 := { t with endStateQueue := restEnd,
                       transitionQueue := t.transitionQueue.tail,
                       callbackQueue := t.callbackQueue.tail,
                       callback := cb }
    let method := resolveMethod reg transition
    let e0 := match t1.engineInstance with
      | some e => if t1.currentMethod = some method then e
                  else newEngine method endValue
      | none => newEngine method endValue
    let e1 := EngineInstance.resetE e0 t1.state t1.velocity
    let t2 := { t1 with currentMethod := some method, engineInstance := some e1 }
    let t3 := if t2.velocity.isSome then { t2 with velocity := e1.velocity } else t2
    { t3 with engineInstance := some (EngineInstance.setTarget e1 endValue) }

/-- update(): mark activity UPDATE; without an engine return; otherwise
sample the engine, emit update, store the sample as the new state, and
when the engine is no longer active push the terminal sequence onto the
deferred after-phase queue.  Nothing terminal runs synchronously inside
update itself. -/
def update (t : Transitionable) : Transitionable :=
  let t0 := { t with activity := STATE.UPDATE }
  match t0.engineInstance with
  | none => t0
  | some e =>
    let s := e.value
    let t1 := { t0 with events := t0.events ++ [Event.updateEvent s], state := s }
    if e.active then t1
    else { t1 with dirtyQueueTasks := t1.dirtyQueueTasks ++ [DeferredTask.terminal] }

/-- The activity-state switch at the head of an instantaneous set: NONE
and END go to START, UPDATE goes to END, and a state without a case
(START) is left unchanged by the source's switch. -/
def instantSwitch : STATE → STATE
  | STATE.NONE => STATE.START
  | STATE.END => STATE.START
  | STATE.UPDATE => STATE.END
  | STATE.START => STATE.START

mutual

/-- set(endState, transition, callback): without a transition an
instantaneous jump — activity switch, hard reset to the end state, the
coalesced dirty block (mark dirty, mark START, register with the ticker,
emit start, push the cleanup closure) when not already dirty, then a
synchronous callback invocation; with a transition — halt when active,
otherwise mark START, register and emit start, then push the triple onto
the queues and run the loader.  The fuel argument bounds only the depth
of synchronous callback re-entry (each nested invocation consumes one
unit); every theorem below supplies more fuel than its scenario uses, so
the zero-fuel fallback is never reached there.  The set log records each
issued call. -/
def set (reg : Registry) :
    Nat → Transitionable → Val → Option TransitionSpec → Option Callback →
    Transitionable
  | 0, t, _, _, _ => t
  | fuel + 1, t, endState, transition, cb =>
    let t := { t with setLog := t.setLog ++ [(endState, transition)] }
    match transition with
    | none =>
      let t := { t with activity := instantSwitch t.activity }
      let t := t.reset endState none
      let t := if t.dirty then t else
        { t with dirty := true, activity := STATE.START, registered := true,
                 events := t.events ++ [Event.startEvent t.state],
                 dirtyQueueTasks := t.dirtyQueueTasks ++ [DeferredTask.instantCleanup] }
      match cb with
      | some c => runCallback reg fuel t c
      | none => t
    | some tr =>
      let t := if isActive t then halt t else
        { t with activity := STATE.START, registered := true,
                 events := t.events ++ [Event.startEvent t.state] }
      let t := { t with endStateQueue := t.endStateQueue ++ [endState],
                        transitionQueue := t.transitionQueue ++ [tr],
                        callbackQueue := t.callbackQueue ++ [cb] }
      loadNext reg t

/-- Invocation of a completion callback: a user callback is recorded in
the call log; an iterate continuation re-enters iterate with the
remaining values. -/
def runCallback (reg : Registry) : Nat → Transitionable → Callback → Transitionable
  | 0, t, _ => t
  | _ + 1, t, Callback.user cid => { t with calls := t.calls ++ [cid] }
  | _ + 1, t, Callback.noCallback => t
  | fuel + 1, t, Callback.iterCont vs ts k => iterate reg fuel t vs ts k

/-- iterate(values, transitions, callback): an immediate callback on an
empty value sequence; otherwise shift the next value — and the next
per-step spec when transitions is an array (shifting an exhausted array
yields no transition), else the shared spec — and set it with the
recursive continuation as callback. -/
def iterate (reg : Registry) :
    Nat → Transitionable → List Val → TransArg → Callback → Transitionable
  | 0, t, _, _, _ => t
  | fuel + 1, t, [], _, cb => runCallback reg fuel t cb
  | fuel + 1, t, v :: rest, TransArg.one s, cb =>
    set reg fuel t v s (some (Callback.iterCont rest (TransArg.one s) cb))
  | fuel + 1, t, v :: rest, TransArg.many [], cb =>
    set reg fuel t v none (some (Callback.iterCont rest (TransArg.many []) cb))
  | fuel + 1, t, v :: rest, TransArg.many (s :: ss), cb =>
    set reg fuel t v (some s) (some (Callback.iterCont rest (TransArg.many ss) cb))

end

/-- The body of a deferred closure when the after-phase queue runs it.
The instantaneous-set cleanup unmarks dirty, marks END, unregisters from
the ticker and emits end with the current state; the terminal sequence
of update marks END, unregisters, emits end with the final state, and
then — if a completion callback is pending — clears it before invoking
it. -/
def runTask (reg : Registry) (fuel : Nat) (t : Transitionable) :
    DeferredTask → Transitionable
  | DeferredTask.instantCleanup =>
    { t with dirty := false, activity := STATE.END, registered := false,
             events := t.events ++ [Event.endEvent t.state] }
  | DeferredTask.terminal =>
    let t1 := { t with activity := STATE.END, registered := false,
                       events := t.events ++ [Event.endEvent t.state] }
    match t1.callback with
    | some c => runCallback reg fuel { t1 with callback := none } c
    | none => t1

/-- One flush of this instance's deferred after-phase queue: the queued
closures run FIFO; closures pushed while flushing stay queued for the
next phase. -/
def runDeferred (reg : Registry) (fuel : Nat) (t : Transitionable) :
    Transitionable :=
  t.dirtyQueueTasks.foldl (fun a task => runTask reg fuel a task)
    { t with dirtyQueueTasks := [] }

/-- One external tick at which the active engine reports completion: the
engine finishes, its completion hook (_loadNext) fires — a no-op on a
drained queue — then the ticker calls update and the after-phase queue
flushes. -/
def tickComplete (reg : Registry) (fuel : Nat) (t : Transitionable) :
    Transitionable :=
  match t.engineInstance with
  | none => runDeferred reg fuel (update t)
  | some e =>
    runDeferred reg fuel
      (update (loadNext reg { t with engineInstance := some e.finish }))

/-- A sequence of back-to-back synchronous instantaneous set calls, one
per value, with no callbacks. -/
def setMany (reg : Registry) (t : Transitionable) (vs : List Val) :
    Transitionable :=
  vs.foldl (fun a v => set reg 1 a v none none) t

end Transitionable

/-- Whether an event is an end event. -/
def isEndEvent : Event → Bool
  | Event.endEvent _ => true
  | _ => false

/-- The number of end events in an event log. -/
def endCount (es : List Event) : Nat := (es.filter isEndEvent).length

open Transitionable

theorem endCount_append (es fs : List Event) :
    endCount (es ++ fs) = endCount es + endCount fs := by
  simp [endCount, List.filter_append]

theorem endCount_start (es : List Event) (v : Val) :
    endCount (es ++ [Event.startEvent v]) = endCount es := by
  simp [endCount, List.filter_append, isEndEvent]

theorem endCount_update (es : List Event) (v : Val) :
    endCount (es ++ [Event.updateEvent v]) = endCount es := by
  simp [endCount, List.filter_append, isEndEvent]

theorem endCount_end (es : List Event) (v : Val) :
    endCount (es ++ [Event.endEvent v]) = endCount es + 1 := by
  simp [endCount, List.filter_append, isEndEvent]

theorem lookupReg_removeReg_self (reg : Registry) (n : String) :
    lookupReg (removeReg reg n) n = none := by
  induction reg with
  | nil => rfl
  | cons p rest ih =>
    obtain ⟨pn, pc⟩ := p
    by_cases h : pn = n <;> simp [removeReg, lookupReg, h, ih]

theorem lookupReg_removeReg_other (reg : Registry) (n m : String) (h : m ≠ n) :
    lookupReg (removeReg reg n) m = lookupReg reg m := by
  induction reg with
  | nil => rfl
  | cons p rest ih =>
    obtain ⟨pn, pc⟩ := p
    by_cases h1 : pn = n
    · subst h1
      have hnm : ¬ (pn = m) := fun hc => h hc.symm
      simp [removeReg, lookupReg, hnm, ih]
    · by_cases h2 : pn = m <;> simp [removeReg, lookupReg, h1, h2, h, ih]

/-- C9: register(name, ctor) adds the mapping only when name is absent
and is a no-op preserving the original registration when name is already
in use; unregister(name) removes the mapping and returns true when name
was registered, and returns false (leaving the registry as it was) when
it was not; other names are unaffected by both. -/
theorem registry_register_unregister_contract (reg : Registry) (n m : String)
    (c : EngineClass) (hnm : m ≠ n) :
    lookupReg (Transitionable.register reg n c) n = some ((lookupReg reg n).getD c) ∧
    ((lookupReg reg n).isSome = true → Transitionable.register reg n c = reg) ∧
    lookupReg (Transitionable.register reg n c) m = lookupReg reg m ∧
    (Transitionable.unregister reg n).2 = (lookupReg reg n).isSome ∧
    lookupReg (Transitionable.unregister reg n).1 n = none ∧
    ((lookupReg reg n).isSome = false → (Transitionable.unregister reg n).1 = reg) ∧
    lookupReg (Transitionable.unregister reg n).1 m = lookupReg reg m := by
  have hmn : ¬ (n = m) := fun hc => hnm hc.symm
  rcases hl : lookupReg reg n with _ | c0 <;>
    simp [Transitionable.register, Transitionable.unregister, hl, lookupReg, hmn,
      lookupReg_removeReg_self, lookupReg_removeReg_other reg n m hnm]

/-- C9 witness: the contract instantiated at a concrete registry holding
one entry, registering under the occupied and a fresh name. -/
theorem registry_register_unregister_contract_witness :
    (("a" : String) ≠ ("b" : String)) ∧
    (lookupReg (Transitionable.register [(("b" : String), TweenTransition)] "b"
        { id := 7, supportsMultiple := 3 }) "b" =
      some ((lookupReg [(("b" : String), TweenTransition)] "b").getD
        { id := 7, supportsMultiple := 3 }) ∧
    ((lookupReg [(("b" : String), TweenTransition)] "b").isSome = true →
      Transitionable.register [(("b" : String), TweenTransition)] "b"
        { id := 7, supportsMultiple := 3 } = [(("b" : String), TweenTransition)]) ∧
    lookupReg (Transitionable.register [(("b" : String), TweenTransition)] "b"
        { id := 7, supportsMultiple := 3 }) "a" =
      lookupReg [(("b" : String), TweenTransition)] "a" ∧
    (Transitionable.unregister [(("b" : String), TweenTransition)] "b").2 =
      (lookupReg [(("b" : String), TweenTransition)] "b").isSome ∧
    lookupReg (Transitionable.unregister [(("b" : String), TweenTransition)] "b").1 "b" =
      none ∧
    ((lookupReg [(("b" : String), TweenTransition)] "b").isSome = false →
      (Transitionable.unregister [(("b" : String), TweenTransition)] "b").1 =
        [(("b" : String), TweenTransition)]) ∧
    lookupReg (Transitionable.unregister [(("b" : String), TweenTransition)] "b").1 "a" =
      lookupReg [(("b" : String), TweenTransition)] "a") :=
  ⟨by decide,
   registry_register_unregister_contract [(("b" : String), TweenTransition)] "b" "a"
     { id := 7, supportsMultiple := 3 } (by decide)⟩

/-- C10: halt is idempotent — a second halt leaves every field of the
instance exactly as the first halt left it. -/
theorem halt_idempotent (t : Transitionable) : halt (halt t) = halt t := rfl

/-- A curveless transition spec, used by the concrete scenarios below. -/
def plainSpec : TransitionSpec := { curve := none, velocity := none }

/-- A reachable instance that is mid-transition: a fresh Transitionable
after set(5, transition) and one tick's update, so activity is UPDATE
and the dirty flag is clear. -/
def midFlight : Transitionable :=
  update (set [] 1 initial (Val.num 5) (some plainSpec) none)

/-- C2 counterexample: on an instance in activity state UPDATE with the
dirty flag clear — reachable by set(5, transition) then update() — an
instantaneous set does not leave END observable when it returns: the
not-dirty block re-marks START after the switch, so the observable state
is START. -/
theorem instantaneous_set_update_observable_counterexample :
    midFlight.activity = STATE.UPDATE ∧
    midFlight.dirty = false ∧
    (set [] 1 midFlight (Val.num 7) none none).activity = STATE.START ∧
    ¬ (set [] 1 midFlight (Val.num 7) none none).activity = STATE.END := by
  decide

/-- C2 (amended): for every instantaneous set(endState) call the switch
maps NONE to START, END to START and UPDATE to END, abandoning the
in-flight transition (the engine is discarded and no callback is
invoked); but when the instance is not already dirty, set then re-marks
the state START inside the coalescing block before returning, so the
activity state observable when set returns is END exactly when the
instance was already dirty and in UPDATE, and START in every other
case. -/
theorem instantaneous_set_activity (reg : Registry) (fuel : Nat)
    (t : Transitionable) (v : Val) :
    (set reg (fuel + 1) t v none none).activity =
      (if t.activity = STATE.UPDATE ∧ t.dirty = true then STATE.END
       else STATE.START) ∧
    (set reg (fuel + 1) t v none none).engineInstance = none ∧
    (set reg (fuel + 1) t v none none).calls = t.calls := by
  cases ht : t.activity <;> cases hd : t.dirty <;>
    simp [Transitionable.set, Transitionable.reset, instantSwitch, ht, hd]

/-- C1: on an instance with an in-flight transition whose stored state
is in sync with the engine's current sample (the situation update() and
the loader leave behind, see update_resyncs and loadNext_syncs), halt()
followed by get() returns exactly the value update() would have sampled
at that instant — no value jump — and halt() discards the engine, the
velocity and all queued entries while leaving the activity state
untouched and emitting nothing. -/
theorem halt_captures_interpolated_value (t : Transitionable)
    (e : EngineInstance) (he : t.engineInstance = some e)
    (hsync : t.state = e.value) :
    get (halt t) = get (update t) ∧
    get (halt t) = get t ∧
    (halt t).engineInstance = none ∧
    (halt t).velocity = none ∧
    (halt t).endStateQueue = [] ∧
    (halt t).transitionQueue = [] ∧
    (halt t).callbackQueue = [] ∧
    (halt t).activity = t.activity ∧
    (halt t).events = t.events := by
  refine ⟨?_, ?_, rfl, rfl, rfl, rfl, rfl, rfl, rfl⟩
  · simp [Transitionable.halt, Transitionable.get, Transitionable.update, he, hsync,
      apply_ite]
  · rfl

theorem set_instant_dirty (reg : Registry) (fuel : Nat) (t : Transitionable)
    (v : Val) (h : t.dirty = true) :
    Transitionable.set reg (fuel + 1) t v none none =
      { t with activity := instantSwitch t.activity, currentMethod := none,
               engineInstance := none, state := v, velocity := none,
               endStateQueue := [], transitionQueue := [], callbackQueue := [],
               setLog := t.setLog ++ [(v, none)] } := by
  simp [Transitionable.set, Transitionable.reset, h]

theorem set_instant_notdirty (reg : Registry) (fuel : Nat) (t : Transitionable)
    (v : Val) (h : t.dirty = false) :
    Transitionable.set reg (fuel + 1) t v none none =
      { t with activity := STATE.START, currentMethod := none,
               engineInstance := none, state := v, velocity := none,
               endStateQueue := [], transitionQueue := [], callbackQueue := [],
               dirty := true, registered := true,
               events := t.events ++ [Event.startEvent v],
               dirtyQueueTasks := t.dirtyQueueTasks ++ [DeferredTask.instantCleanup],
               setLog := t.setLog ++ [(v, none)] } := by
  simp [Transitionable.set, Transitionable.reset, h]

theorem setMany_dirty_facts (reg : Registry) (vs : List Val) (t : Transitionable)
    (h : t.dirty = true) :
    (setMany reg t vs).dirty = true ∧
    (setMany reg t vs).events = t.events ∧
    (setMany reg t vs).dirtyQueueTasks = t.dirtyQueueTasks ∧
    (setMany reg t vs).state = vs.getLastD t.state := by
  induction vs generalizing t with
  | nil => simp [setMany, h]
  | cons v rest ih =>
    have hcons : setMany reg t (v :: rest) =
        setMany reg (Transitionable.set reg 1 t v none none) rest := rfl
    rw [hcons, set_instant_dirty reg 0 t v h]
    obtain ⟨kd, kev, kta, kst⟩ := ih
      { t with activity := instantSwitch t.activity, currentMethod := none,
               engineInstance := none, state := v, velocity := none,
               endStateQueue := [], transitionQueue := [], callbackQueue := [],
               setLog := t.setLog ++ [(v, none)] } h
    exact ⟨kd, kev, kta, by rw [List.getLastD_cons]; exact kst⟩

/-- C3: for every sequence of two (or more generally one) or more
instantaneous set calls issued back-to-back synchronously within one
phase — the instance starts the phase with the dirty flag clear and no
deferred task pending — no end event fires during the calls, exactly one
end event fires once the deferred phase runs, and at that point the
state equals the last value set (and the activity state has reached
END). -/
theorem instantaneous_sets_fire_one_end (reg : Registry) (t : Transitionable)
    (v : Val) (vs : List Val) (hd : t.dirty = false)
    (hq : t.dirtyQueueTasks = []) :
    endCount (setMany reg t (v :: vs)).events = endCount t.events ∧
    endCount (runDeferred reg 1 (setMany reg t (v :: vs))).events =
      endCount t.events + 1 ∧
    (runDeferred reg 1 (setMany reg t (v :: vs))).state = vs.getLastD v ∧
    (runDeferred reg 1 (setMany reg t (v :: vs))).activity = STATE.END := by
  have hcons : setMany reg t (v :: vs) =
      setMany reg (Transitionable.set reg 1 t v none none) vs := rfl
  have h1 : Transitionable.set reg 1 t v none none =
      { t with activity := STATE.START, currentMethod := none,
               engineInstance := none, state := v, velocity := none,
               endStateQueue := [], transitionQueue := [], callbackQueue := [],
               dirty := true, registered := true,
               events := t.events ++ [Event.startEvent v],
               dirtyQueueTasks := t.dirtyQueueTasks ++ [DeferredTask.instantCleanup],
               setLog := t.setLog ++ [(v, none)] } :=
    set_instant_notdirty reg 0 t v hd
  obtain ⟨kd, kev, kta, kst⟩ :=
    setMany_dirty_facts reg vs (Transitionable.set reg 1 t v none none)
      (by rw [h1])
  have hev : (setMany reg t (v :: vs)).events = t.events ++ [Event.startEvent v] := by
    rw [hcons, kev, h1]
  have hta : (setMany reg t (v :: vs)).dirtyQueueTasks = [DeferredTask.instantCleanup] := by
    rw [hcons, kta, h1]; simp [hq]
  have hst : (setMany reg t (v :: vs)).state = vs.getLastD v := by
    rw [hcons, kst, h1]
  have hrd : runDeferred reg 1 (setMany reg t (v :: vs)) =
      runTask reg 1
        { setMany reg t (v :: vs) with dirtyQueueTasks := [] }
        DeferredTask.instantCleanup := by
    simp [runDeferred, hta]
  refine ⟨by rw [hev, endCount_start], ?_, ?_, ?_⟩ <;>
    simp [hrd, runTask, hev, hst, endCount, isEndEvent, List.filter_append]

/-- C3 witness: two back-to-back instantaneous sets on a fresh instance
fire exactly one end event after the deferred phase, with final state
6. -/
theorem instantaneous_sets_fire_one_end_witness :
    initial.dirty = false ∧
    initial.dirtyQueueTasks = [] ∧
    (endCount (setMany [] initial [Val.num 4, Val.num 6]).events =
       endCount initial.events ∧
     endCount (runDeferred [] 1 (setMany [] initial [Val.num 4, Val.num 6])).events =
       endCount initial.events + 1 ∧
     (runDeferred [] 1 (setMany [] initial [Val.num 4, Val.num 6])).state =
       [Val.num 6].getLastD (Val.num 4) ∧
     (runDeferred [] 1 (setMany [] initial [Val.num 4, Val.num 6])).activity =
       STATE.END) :=
  ⟨rfl, rfl,
   instantaneous_sets_fire_one_end [] initial (Val.num 4) [Val.num 6] rfl rfl⟩

theorem runCallback_user (reg : Registry) (fuel : Nat) (t : Transitionable)
    (cid : Nat) :
    runCallback reg (fuel + 1) t (Callback.user cid) =
      { t with calls := t.calls ++ [cid] } := rfl

theorem runCallback_iterCont (reg : Registry) (fuel : Nat) (t : Transitionable)
    (vs : List Val) (ts : TransArg) (k : Callback) :
    runCallback reg (fuel + 1) t (Callback.iterCont vs ts k) =
      iterate reg fuel t vs ts k := rfl

/-- C4: when update() samples an engine that reports it is no longer
active, the terminal sequence is not run synchronously inside update —
the activity state is still UPDATE, the registration, end-event count,
call log and pending callback are unchanged when update returns, and the
terminal closure has been pushed onto the deferred after-phase queue —
and when the deferred phase runs, it marks END, unregisters, emits end
with the final state, and clears the pending completion callback before
invoking it, so the callback runs at most once. -/
theorem update_defers_terminal_sequence (reg : Registry) (fuel : Nat)
    (t : Transitionable) (e : EngineInstance) (cid : Nat)
    (he : t.engineInstance = some e) (hact : e.active = false)
    (hcb : t.callback = some (Callback.user cid))
    (hq : t.dirtyQueueTasks = []) :
    (update t).dirtyQueueTasks = [DeferredTask.terminal] ∧
    (update t).activity = STATE.UPDATE ∧
    (update t).registered = t.registered ∧
    endCount (update t).events = endCount t.events ∧
    (update t).calls = t.calls ∧
    (update t).callback = t.callback ∧
    (update t).state = e.value ∧
    (runDeferred reg (fuel + 1) (update t)).activity = STATE.END ∧
    (runDeferred reg (fuel + 1) (update t)).registered = false ∧
    (runDeferred reg (fuel + 1) (update t)).events =
      (update t).events ++ [Event.endEvent e.value] ∧
    (runDeferred reg (fuel + 1) (update t)).callback = none ∧
    (runDeferred reg (fuel + 1) (update t)).calls = t.calls ++ [cid] := by
  have hu : update t =
      { t with activity := STATE.UPDATE,
               events := t.events ++ [Event.updateEvent e.value],
               state := e.value, callback := some (Callback.user cid),
               dirtyQueueTasks := [DeferredTask.terminal] } := by
    simp [update, he, hact, hq, hcb]
  rw [hu]
  simp [hcb, runDeferred, runTask, runCallback_user, endCount, isEndEvent,
    List.filter_append]

/-- A concrete inactive engine instance for the C4 witness. -/
def engineDoneW : EngineInstance :=
  { cls := TweenTransition, multiple := false, value := Val.num 4,
    velocity := none, active := false, target := none }

/-- A concrete instance whose engine has just completed with a pending
user callback, for the C4 witness. -/
def completedW : Transitionable :=
  { initial with engineInstance := some engineDoneW,
                 callback := some (Callback.user 5),
                 activity := STATE.UPDATE, registered := true }

/-- C4 witness: the deferred terminal sequence at the concrete instance
completedW. -/
theorem update_defers_terminal_sequence_witness :
    completedW.engineInstance = some engineDoneW ∧
    engineDoneW.active = false ∧
    completedW.callback = some (Callback.user 5) ∧
    completedW.dirtyQueueTasks = [] ∧
    ((update completedW).dirtyQueueTasks = [DeferredTask.terminal] ∧
     (update completedW).activity = STATE.UPDATE ∧
     (update completedW).registered = completedW.registered ∧
     endCount (update completedW).events = endCount completedW.events ∧
     (update completedW).calls = completedW.calls ∧
     (update completedW).callback = completedW.callback ∧
     (update completedW).state = engineDoneW.value ∧
     (runDeferred [] (0 + 1) (update completedW)).activity = STATE.END ∧
     (runDeferred [] (0 + 1) (update completedW)).registered = false ∧
     (runDeferred [] (0 + 1) (update completedW)).events =
       (update completedW).events ++ [Event.endEvent engineDoneW.value] ∧
     (runDeferred [] (0 + 1) (update completedW)).callback = none ∧
     (runDeferred [] (0 + 1) (update completedW)).calls =
       completedW.calls ++ [5]) :=
  ⟨rfl, rfl, rfl, rfl,
   update_defers_terminal_sequence [] 0 completedW engineDoneW 5 rfl rfl rfl rfl⟩

/-- C5: a set call with a transition on an instance with drained queues
(the only reachable shape: the three queues are pushed and popped
together and every push is immediately drained by the loader): when the
instance is active (activity UPDATE, i.e. isActive), halt runs first —
the velocity is discarded, no start event is emitted, and registration,
activity and dirty flag are untouched; otherwise the activity is marked
START, the instance registers with the ticker and start is emitted with
the pre-set state.  In both cases the new triple is then appended and
immediately drained by the loader: the pending completion callback is
the new one, the queues are empty again and an engine instance is
loaded. -/
theorem set_transition_halts_or_registers (reg : Registry) (fuel : Nat)
    (t : Transitionable) (v : Val) (tr : TransitionSpec) (cb : Option Callback)
    (h1 : t.endStateQueue = []) (h2 : t.transitionQueue = [])
    (h3 : t.callbackQueue = []) :
    (Transitionable.set reg (fuel + 1) t v (some tr) cb).callback = cb ∧
    (Transitionable.set reg (fuel + 1) t v (some tr) cb).endStateQueue = [] ∧
    (Transitionable.set reg (fuel + 1) t v (some tr) cb).transitionQueue = [] ∧
    (Transitionable.set reg (fuel + 1) t v (some tr) cb).callbackQueue = [] ∧
    (Transitionable.set reg (fuel + 1) t v (some tr) cb).engineInstance.isSome = true ∧
    (t.activity = STATE.UPDATE →
      (Transitionable.set reg (fuel + 1) t v (some tr) cb).events = t.events ∧
      (Transitionable.set reg (fuel + 1) t v (some tr) cb).velocity = none ∧
      (Transitionable.set reg (fuel + 1) t v (some tr) cb).registered = t.registered ∧
      (Transitionable.set reg (fuel + 1) t v (some tr) cb).activity = t.activity ∧
      (Transitionable.set reg (fuel + 1) t v (some tr) cb).dirty = t.dirty) ∧
    (¬ t.activity = STATE.UPDATE →
      (Transitionable.set reg (fuel + 1) t v (some tr) cb).activity = STATE.START ∧
      (Transitionable.set reg (fuel + 1) t v (some tr) cb).registered = true ∧
      (Transitionable.set reg (fuel + 1) t v (some tr) cb).velocity = t.velocity ∧
      (Transitionable.set reg (fuel + 1) t v (some tr) cb).events =
        t.events ++ [Event.startEvent t.state]) := by
  by_cases hA : t.activity = STATE.UPDATE
  · simp [Transitionable.set, isActive, hA, Transitionable.halt,
      Transitionable.get, loadNext, EngineInstance.resetE,
      EngineInstance.setTarget, newEngine, h1, h2, h3]
  · rcases hE : t.engineInstance with _ | e <;>
      rcases hv : t.velocity with _ | w <;>
      by_cases hcm : t.currentMethod = some (resolveMethod reg tr) <;>
      simp [Transitionable.set, isActive, hA, Transitionable.halt,
        Transitionable.get, loadNext, EngineInstance.resetE,
        EngineInstance.setTarget, newEngine, h1, h2, h3, hE, hv, hcm]

/-- C5 witness: the halt-or-register dichotomy at the reachable
mid-flight instance (active case discharged, inactive implication
delivered vacuously-free by the theorem). -/
theorem set_transition_halts_or_registers_witness :
    midFlight.endStateQueue = [] ∧
    midFlight.transitionQueue = [] ∧
    midFlight.callbackQueue = [] ∧
    ((Transitionable.set [] (0 + 1) midFlight (Val.num 9) (some plainSpec) none).callback = none ∧
     (Transitionable.set [] (0 + 1) midFlight (Val.num 9) (some plainSpec) none).endStateQueue = [] ∧
     (Transitionable.set [] (0 + 1) midFlight (Val.num 9) (some plainSpec) none).transitionQueue = [] ∧
     (Transitionable.set [] (0 + 1) midFlight (Val.num 9) (some plainSpec) none).callbackQueue = [] ∧
     (Transitionable.set [] (0 + 1) midFlight (Val.num 9) (some plainSpec) none).engineInstance.isSome = true ∧
     (midFlight.activity = STATE.UPDATE →
       (Transitionable.set [] (0 + 1) midFlight (Val.num 9) (some plainSpec) none).events = midFlight.events ∧
       (Transitionable.set [] (0 + 1) midFlight (Val.num 9) (some plainSpec) none).velocity = none ∧
       (Transitionable.set [] (0 + 1) midFlight (Val.num 9) (some plainSpec) none).registered = midFlight.registered ∧
       (Transitionable.set [] (0 + 1) midFlight (Val.num 9) (some plainSpec) none).activity = midFlight.activity ∧
       (Transitionable.set [] (0 + 1) midFlight (Val.num 9) (some plainSpec) none).dirty = midFlight.dirty) ∧
     (¬ midFlight.activity = STATE.UPDATE →
       (Transitionable.set [] (0 + 1) midFlight (Val.num 9) (some plainSpec) none).activity = STATE.START ∧
       (Transitionable.set [] (0 + 1) midFlight (Val.num 9) (some plainSpec) none).registered = true ∧
       (Transitionable.set [] (0 + 1) midFlight (Val.num 9) (some plainSpec) none).velocity = midFlight.velocity ∧
       (Transitionable.set [] (0 + 1) midFlight (Val.num 9) (some plainSpec) none).events =
         midFlight.events ++ [Event.startEvent midFlight.state])) :=
  ⟨rfl, rfl, rfl,
   set_transition_halts_or_registers [] 0 midFlight (Val.num 9) plainSpec none
     rfl rfl rfl⟩

/-- C6: the loader chooses the engine kind from transition.curve via the
registry (defaulting to the tween engine when the curve is absent or
unknown, see also unknown_curve_defaults_to_tween); it constructs a new
engine instance only when the chosen kind differs from the currently
instantiated kind — single-value exactly when the end state is a plain
number or its length is at most the kind's SUPPORTS_MULTIPLE threshold,
composite otherwise — and otherwise reuses the existing instance, whose
class and composite flag are preserved.  In either case the engine ends
up reset to the current state and commanded toward the popped end
state.  The coherence hypothesis (an instantiated kind implies a live
engine) expresses the source invariant that the two fields are cleared
together. -/
theorem loader_engine_selection (reg : Registry) (t : Transitionable) (v : Val)
    (tr : TransitionSpec) (vs : List Val) (trs : List TransitionSpec)
    (hE : t.endStateQueue = v :: vs) (hT : t.transitionQueue = tr :: trs)
    (hcoh : t.currentMethod = some (resolveMethod reg tr) →
      t.engineInstance.isSome = true) :
    (loadNext reg t).currentMethod = some (resolveMethod reg tr) ∧
    Option.map EngineInstance.cls (loadNext reg t).engineInstance =
      (if t.currentMethod = some (resolveMethod reg tr)
       then Option.map EngineInstance.cls t.engineInstance
       else some (resolveMethod reg tr)) ∧
    Option.map EngineInstance.multiple (loadNext reg t).engineInstance =
      (if t.currentMethod = some (resolveMethod reg tr)
       then Option.map EngineInstance.multiple t.engineInstance
       else some (! singleCond v (resolveMethod reg tr))) ∧
    Option.map EngineInstance.target (loadNext reg t).engineInstance =
      some (some v) ∧
    Option.map EngineInstance.active (loadNext reg t).engineInstance =
      some true ∧
    Option.map EngineInstance.value (loadNext reg t).engineInstance =
      some t.state := by
  by_cases hcm : t.currentMethod = some (resolveMethod reg tr)
  · have hs := hcoh hcm
    rcases he : t.engineInstance with _ | e
    · rw [he] at hs; simp at hs
    · rcases hv : t.velocity with _ | w <;>
        simp [loadNext, hE, hT, he, hcm, hv, EngineInstance.resetE,
          EngineInstance.setTarget]
  · rcases he : t.engineInstance with _ | e <;>
      rcases hv : t.velocity with _ | w <;>
      simp [loadNext, hE, hT, he, hcm, hv, EngineInstance.resetE,
        EngineInstance.setTarget, newEngine]

/-- A concrete instance with one freshly pushed triple, for the C6
witness. -/
def pendingW : Transitionable :=
  { initial with endStateQueue := [Val.num 2],
                 transitionQueue := [plainSpec],
                 callbackQueue := [none] }

/-- C6 witness: engine selection at the concrete pending instance
pendingW, exercising the fresh-construction branch. -/
theorem loader_engine_selection_witness :
    pendingW.endStateQueue = [Val.num 2] ∧
    pendingW.transitionQueue = [plainSpec] ∧
    (pendingW.currentMethod = some (resolveMethod [] plainSpec) →
      pendingW.engineInstance.isSome = true) ∧
    ((loadNext [] pendingW).currentMethod = some (resolveMethod [] plainSpec) ∧
     Option.map EngineInstance.cls (loadNext [] pendingW).engineInstance =
       (if pendingW.currentMethod = some (resolveMethod [] plainSpec)
        then Option.map EngineInstance.cls pendingW.engineInstance
        else some (resolveMethod [] plainSpec)) ∧
     Option.map EngineInstance.multiple (loadNext [] pendingW).engineInstance =
       (if pendingW.currentMethod = some (resolveMethod [] plainSpec)
        then Option.map EngineInstance.multiple pendingW.engineInstance
        else some (! singleCond (Val.num 2) (resolveMethod [] plainSpec))) ∧
     Option.map EngineInstance.target (loadNext [] pendingW).engineInstance =
       some (some (Val.num 2)) ∧
     Option.map EngineInstance.active (loadNext [] pendingW).engineInstance =
       some true ∧
     Option.map EngineInstance.value (loadNext [] pendingW).engineInstance =
       some pendingW.state) :=
  ⟨rfl, rfl, by decide,
   loader_engine_selection [] pendingW (Val.num 2) plainSpec [] []
     rfl rfl (by decide)⟩

/-- C8: a transition spec whose curve is missing, falsy, a bare
function, or a name that is not registered resolves to the default tween
engine, and the set call carrying it succeeds with the tween engine
instantiated — no error path exists for an unknown or missing curve. -/
theorem unknown_curve_defaults_to_tween (reg : Registry) (fuel : Nat)
    (t : Transitionable) (v : Val) (tr : TransitionSpec) (cb : Option Callback)
    (hcur : ∀ s, tr.curve = some (Curve.name s) → lookupReg reg s = none)
    (h1 : t.endStateQueue = []) (h2 : t.transitionQueue = []) :
    resolveMethod reg tr = TweenTransition ∧
    (Transitionable.set reg (fuel + 1) t v (some tr) cb).currentMethod =
      some TweenTransition := by
  have hres : resolveMethod reg tr = TweenTransition := by
    rcases hc : tr.curve with _ | c
    · simp [resolveMethod, hc]
    · rcases c with s | _
      · simp [resolveMethod, hc, hcur s hc]
      · simp [resolveMethod, hc]
  refine ⟨hres, ?_⟩
  by_cases hA : t.activity = STATE.UPDATE
  · simp [Transitionable.set, isActive, hA, Transitionable.halt,
      Transitionable.get, loadNext, EngineInstance.resetE,
      EngineInstance.setTarget, newEngine, h1, h2, hres]
  · rcases hE : t.engineInstance with _ | e <;>
      rcases hv : t.velocity with _ | w <;>
      by_cases hcm : t.currentMethod = some TweenTransition <;>
      simp [Transitionable.set, isActive, hA, Transitionable.halt,
        Transitionable.get, loadNext, EngineInstance.resetE,
        EngineInstance.setTarget, newEngine, h1, h2, hE, hv, hcm, hres]

/-- An unregistered curve name, for the C8 witness. -/
def bounceSpec : TransitionSpec :=
  { curve := some (Curve.name "bounce"), velocity := none }

/-- C8 witness: a set with an unregistered curve name on a fresh
instance resolves to and instantiates the default tween engine. -/
theorem unknown_curve_defaults_to_tween_witness :
    (∀ s, bounceSpec.curve = some (Curve.name s) → lookupReg [] s = none) ∧
    initial.endStateQueue = [] ∧
    initial.transitionQueue = [] ∧
    (resolveMethod [] bounceSpec = TweenTransition ∧
     (Transitionable.set [] (0 + 1) initial (Val.num 1) (some bounceSpec)
        none).currentMethod = some TweenTransition) :=
  ⟨fun _ _ => rfl, rfl, rfl,
   unknown_curve_defaults_to_tween [] 0 initial (Val.num 1) bounceSpec none
     (fun _ _ => rfl) rfl rfl⟩


theorem iterate_nil (reg : Registry) (fuel : Nat) (t : Transitionable)
    (ts : TransArg) (cb : Callback) :
    iterate reg (fuel + 1) t [] ts cb = runCallback reg fuel t cb := rfl

theorem iterate_cons_one (reg : Registry) (fuel : Nat) (t : Transitionable)
    (v : Val) (rest : List Val) (s : Option TransitionSpec) (cb : Callback) :
    iterate reg (fuel + 1) t (v :: rest) (TransArg.one s) cb =
      Transitionable.set reg fuel t v s
        (some (Callback.iterCont rest (TransArg.one s) cb)) := rfl

theorem iterate_cons_many (reg : Registry) (fuel : Nat) (t : Transitionable)
    (v : Val) (rest : List Val) (s : TransitionSpec) (ss : List TransitionSpec)
    (cb : Callback) :
    iterate reg (fuel + 1) t (v :: rest) (TransArg.many (s :: ss)) cb =
      Transitionable.set reg fuel t v (some s)
        (some (Callback.iterCont rest (TransArg.many ss) cb)) := rfl

/-- The engine instance the loader leaves behind: the kept or freshly
constructed engine, reset to the current state and velocity and
commanded toward the popped end value. -/
def loadedEngine (reg : Registry) (t : Transitionable) (v : Val)
    (tr : TransitionSpec) : EngineInstance :=
  EngineInstance.setTarget
    (EngineInstance.resetE
      (match t.engineInstance with
       | some e =>
         if t.currentMethod = some (resolveMethod reg tr) then e
         else newEngine (resolveMethod reg tr) v
       | none => newEngine (resolveMethod reg tr) v)
      t.state t.velocity) v

theorem loadedEngine_target (reg : Registry) (t : Transitionable) (v : Val)
    (tr : TransitionSpec) : (loadedEngine reg t v tr).target = some v := rfl

theorem set_transition_idle_eq (reg : Registry) (fuel : Nat)
    (t : Transitionable) (v : Val) (tr : TransitionSpec) (cb : Option Callback)
    (hA : ¬ t.activity = STATE.UPDATE) (h1 : t.endStateQueue = [])
    (h2 : t.transitionQueue = []) (h3 : t.callbackQueue = []) :
    Transitionable.set reg (fuel + 1) t v (some tr) cb =
      { t with activity := STATE.START, registered := true,
               events := t.events ++ [Event.startEvent t.state],
               setLog := t.setLog ++ [(v, some tr)], callback := cb,
               endStateQueue := [], transitionQueue := [], callbackQueue := [],
               velocity := t.velocity,
               currentMethod := some (resolveMethod reg tr),
               engineInstance := some (loadedEngine reg t v tr) } := by
  rcases hE : t.engineInstance with _ | e0 <;>
    rcases hv : t.velocity with _ | w <;>
    by_cases hcm : t.currentMethod = some (resolveMethod reg tr) <;>
    simp [Transitionable.set, isActive, hA, loadNext, h1, h2, h3, hE, hv, hcm,
      loadedEngine, EngineInstance.resetE, EngineInstance.setTarget]

theorem tickComplete_completes (reg : Registry) (fuel : Nat)
    (t : Transitionable) (e : EngineInstance) (tgt : Val) (c : Callback)
    (he : t.engineInstance = some e) (htgt : e.target = some tgt)
    (hq : t.endStateQueue = []) (hd : t.dirtyQueueTasks = [])
    (hcb : t.callback = some c) :
    tickComplete reg (fuel + 1) t =
      runCallback reg (fuel + 1)
        { t with engineInstance :=
                   some { e with value := tgt, active := false, target := none },
                 state := tgt, activity := STATE.END, registered := false,
                 callback := none,
                 events := t.events ++ [Event.updateEvent tgt, Event.endEvent tgt] }
        c := by
  simp [tickComplete, he, EngineInstance.finish, htgt, loadNext, hq, update,
    hd, runDeferred, runTask, hcb]

set_option maxHeartbeats 1600000 in
/-- C7: iterate with an empty value sequence issues no transition and
invokes the callback immediately, leaving everything else untouched;
iterate with values [a, b, c] issues exactly three chained set calls in
order a, b, c — consuming per-step specs in lockstep when transitions is
a sequence of specs, and reusing the one shared spec otherwise — and the
final callback is invoked exactly once, only after the third transition
completes (after two completion ticks no callback has fired; after the
third the call log holds exactly one invocation). -/
theorem iterate_chains_values_and_calls_back_once (reg : Registry)
    (a b c : Val) (T T1 T2 T3 : TransitionSpec) (cid : Nat) :
    iterate reg 2 initial [] (TransArg.one (some T)) (Callback.user cid) =
      { initial with calls := [cid] } ∧
    (tickComplete reg 9 (tickComplete reg 9 (iterate reg 9 initial [a, b, c]
       (TransArg.one (some T)) (Callback.user cid)))).calls = [] ∧
    (tickComplete reg 9 (tickComplete reg 9 (tickComplete reg 9 (iterate reg 9
        initial [a, b, c] (TransArg.one (some T)) (Callback.user cid))))).setLog =
      [(a, some T), (b, some T), (c, some T)] ∧
    (tickComplete reg 9 (tickComplete reg 9 (tickComplete reg 9 (iterate reg 9
        initial [a, b, c] (TransArg.one (some T)) (Callback.user cid))))).calls =
      [cid] ∧
    (tickComplete reg 9 (tickComplete reg 9 (iterate reg 9 initial [a, b, c]
       (TransArg.many [T1, T2, T3]) (Callback.user cid)))).calls = [] ∧
    (tickComplete reg 9 (tickComplete reg 9 (tickComplete reg 9 (iterate reg 9
        initial [a, b, c] (TransArg.many [T1, T2, T3])
        (Callback.user cid))))).setLog =
      [(a, some T1), (b, some T2), (c, some T3)] ∧
    (tickComplete reg 9 (tickComplete reg 9 (tickComplete reg 9 (iterate reg 9
        initial [a, b, c] (TransArg.many [T1, T2, T3])
        (Callback.user cid))))).calls = [cid] := by
  simp [iterate_nil, iterate_cons_one, iterate_cons_many,
    set_transition_idle_eq, tickComplete_completes, runCallback_iterCont,
    runCallback_user, loadedEngine_target, initial]

/-- Support for the synchronisation hypothesis of
halt_captures_interpolated_value: an update on an instance with a live
engine stores the engine's sample, leaving state and engine in sync. -/
theorem update_resyncs (t : Transitionable) (e : EngineInstance)
    (he : t.engineInstance = some e) :
    (update t).engineInstance = some e ∧ (update t).state = e.value := by
  rcases ha : e.active <;> simp [update, he, ha]

/-- Support for the synchronisation hypothesis of
halt_captures_interpolated_value: after the loader runs on a freshly
pushed triple, the commanded engine's sampled value equals the stored
state. -/
theorem loadNext_syncs (reg : Registry) (t : Transitionable) (v : Val)
    (vs : List Val) (tr : TransitionSpec) (trs : List TransitionSpec)
    (hE : t.endStateQueue = v :: vs) (hT : t.transitionQueue = tr :: trs) :
    Option.map EngineInstance.value (loadNext reg t).engineInstance =
      some (loadNext reg t).state := by
  rcases he : t.engineInstance with _ | e0 <;>
    rcases hv : t.velocity with _ | w <;>
    by_cases hcm : t.currentMethod = some (resolveMethod reg tr) <;>
    simp [loadNext, hE, hT, he, hv, hcm, EngineInstance.resetE,
      EngineInstance.setTarget]

/-- A concrete in-flight engine instance for the C1 witness. -/
def engineW : EngineInstance :=
  { cls := TweenTransition, multiple := false, value := Val.num 3,
    velocity := none, active := true, target := some (Val.num 7) }

/-- A concrete mid-transition instance in sync with engineW. -/
def inFlightW : Transitionable :=
  { initial with engineInstance := some engineW, state := Val.num 3,
                 activity := STATE.UPDATE, registered := true }

/-- C1 witness: the halt-no-jump property at the concrete in-flight
instance inFlightW. -/
theorem halt_captures_interpolated_value_witness :
    inFlightW.engineInstance = some engineW ∧
    inFlightW.state = engineW.value ∧
    (get (halt inFlightW) = get (update inFlightW) ∧
     get (halt inFlightW) = get inFlightW ∧
     (halt inFlightW).engineInstance = none ∧
     (halt inFlightW).velocity = none ∧
     (halt inFlightW).endStateQueue = [] ∧
     (halt inFlightW).transitionQueue = [] ∧
     (halt inFlightW).callbackQueue = [] ∧
     (halt inFlightW).activity = inFlightW.activity ∧
     (halt inFlightW).events = inFlightW.events) :=
  ⟨rfl, rfl, halt_captures_interpolated_value inFlightW engineW rfl rfl⟩

end Lume
